import Mathlib

/-!
Verification development for the Spotificity CLI action layer
(`src/cli/actions/actions.py` and the menu loop in `src/spotificity.py`).

The Python functions are shallowly embedded: each interactive function
becomes a Lean function over an explicit cache state, a scripted remote
response for every `boto3` invocation it performs, and a finite list of
user-input lines for every `input()` it reads.  Exceptions raised by the
Python code are modelled as explicit `raised` outcomes.
-/

set_option maxHeartbeats 1000000

namespace Spotificity

/-- Exceptions that the action layer can raise.  `clientError` and
`otherError` model the `except ClientError` / `except Exception` re-raise
branches of each `boto3` invoke; the middle block models the custom
exception classes imported from `exceptions.error_handling`; `indexError`
and `valueError` model Python's built-in `IndexError` / `ValueError`. -/
inductive SpotErr where
  | clientError (code msg : String)
  | otherError (msg : String)
  | exceptionDuringLambdaExecution (lambdaName msg : String)
  | failedToRetrieveMonitoredArtists (msg : String)
  | failedToRetrieveListOfMatchesWithIDs (msg : String)
  | failedToRetrieveToken
  | indexError
  | valueError
  deriving DecidableEq, Repr

/-- One cached entry: the dict `{'artist_id': ..., 'artist_name': ...}`
stored in `CACHED_ARTIST_LIST`.  Python `dict` equality (used by
`artist in CACHED_ARTIST_LIST`) is equality of both fields, which is the
derived `DecidableEq`. -/
structure Artist where
  artist_id : String
  artist_name : String
  deriving DecidableEq, Repr

/-- The module-level mutable state of `actions.py`: the globals
`CACHED_ARTIST_LIST` and `IS_CACHE_EMPTY`. -/
structure CacheState where
  cachedArtistList : List Artist
  isCacheEmpty : Bool
  deriving DecidableEq, Repr

/-- The guard on line 72 of `actions.py`:
`len(CACHED_ARTIST_LIST) > 0 or IS_CACHE_EMPTY`.
When it holds, `list_artists` answers from the cache without a remote call. -/
def servesFromCache (s : CacheState) : Bool :=
  decide (0 < s.cachedArtistList.length) || s.isCacheEmpty

/-- Result of one `boto3` `lambda_.invoke` round trip: either an exception
raised during the call (caught, printed and re-raised by the code), or the
decoded JSON payload. -/
inductive Invoke (α : Type) where
  | fail (e : SpotErr)
  | resp (payload : α)
  deriving DecidableEq, Repr

/-- Decoded response of the `FetchArtistsHandler` invocation used by
`list_artists`.  `errorMessage` and `payloadError` are the two optional
error fields the code tests first (`returned_payload.get('errorMessage')`
and `returned_payload['payload'].get('error')`). -/
structure ListPayload where
  errorMessage : Option String
  payloadError : Option String
  status_code : Nat
  current_artists_names : List String
  current_artists_with_id : List Artist
  deriving DecidableEq, Repr

/-- One element of `artistSearchResultsList` in the `GetArtist-IDHandler`
response. -/
structure SearchArtist where
  id : String
  name : String
  genres : List String
  deriving DecidableEq, Repr

/-- Decoded response of the `GetArtist-IDHandler` invocation used by
`fetch_artist_id`. -/
structure SearchPayload where
  errorMessage : Option String
  payloadError : Option String
  artistSearchResultsList : List SearchArtist
  deriving DecidableEq, Repr

/-- Decoded response of the `AddArtistsHandler` / `RemoveArtistsHandler`
write invocations: only the `statusCode` field is inspected. -/
structure WritePayload where
  statusCode : Nat
  deriving DecidableEq, Repr

/-- Decoded response of the `GetAccessTokenHandler` invocation:
`access_token` is `none` when the field is absent (or JSON null). -/
structure TokenPayload where
  access_token : Option String
  deriving DecidableEq, Repr

/-- Python `str.lower()` restricted to the ASCII inputs this CLI handles. -/
def pyLower (s : String) : String :=
  String.mk (s.data.map Char.toLower)

/-- Whitespace stripped by Python `int()` before parsing. -/
def isPySpace (c : Char) : Bool :=
  c = ' ' || c = '\t' || c = '\n' || c = '\r'

/-- Strip leading and trailing whitespace, as `int()` does. -/
def pyStrip (cs : List Char) : List Char :=
  ((cs.dropWhile isPySpace).reverse.dropWhile isPySpace).reverse

/-- Accumulate a decimal digit string; any non-digit character fails. -/
def parseDigitsGo : List Char → Nat → Option Nat
  | [], acc => some acc
  | c :: rest, acc =>
    if c.isDigit then parseDigitsGo rest (10 * acc + (c.toNat - 48)) else none

/-- A non-empty all-digit character list, or failure. -/
def parseDigitsNE : List Char → Option Nat
  | [] => none
  | cs => parseDigitsGo cs 0

/-- Python `int(s)` on ASCII decimal strings: optional surrounding
whitespace, one optional sign, then a non-empty digit run.  `none` models
the `ValueError` that `int` raises on anything else. -/
def pyParseInt (s : String) : Option Int :=
  match pyStrip s.data with
  | [] => none
  | '+' :: rest => (parseDigitsNE rest).map (fun n => (n : Int))
  | '-' :: rest => (parseDigitsNE rest).map (fun n => -(n : Int))
  | cs => (parseDigitsNE cs).map (fun n => (n : Int))

/-- The helper `get_valid_user_input` (lines 49-59): read lines, lowercase
each, return the first one found in `valid_choices`; every rejected line
only prints a re-prompt message.  `none` means the finite scripted input
ran out while the Python loop would still be prompting. -/
def get_valid_user_input (valid_choices : List String) :
    List String → Option (String × List String)
  | [] => none
  | i :: rest =>
    let user_input := pyLower i
    if user_input ∈ valid_choices then some (user_input, rest)
    else get_valid_user_input valid_choices rest

/-- What `list_artists` did: printed the numbered artist list, printed the
"No artists currently being monitored." message, or raised. -/
inductive ListOutcome where
  | printedList (names : List String)
  | printedNone
  | raised (e : SpotErr)
  deriving DecidableEq, Repr

/-- Full effect of one `list_artists` call: what was printed or raised, the
cache state afterwards, and whether a remote invocation was issued. -/
structure ListStep where
  outcome : ListOutcome
  state : CacheState
  remoteCalled : Bool
  deriving DecidableEq, Repr

/-- `list_artists` (lines 62-125).  If the cache has items or the
`IS_CACHE_EMPTY` flag is set, it prints from the cache; otherwise it
invokes `FetchArtistsHandler` and follows the `errorMessage` /
`payload.error` / `status_code == 204` / success chain. -/
def list_artists (s : CacheState) (inv : Invoke ListPayload) : ListStep :=
  if servesFromCache s then
    if 0 < s.cachedArtistList.length then
      ⟨.printedList (s.cachedArtistList.map Artist.artist_name), s, false⟩
    else
      ⟨.printedNone, s, false⟩
  else
    match inv with
    | .fail e => ⟨.raised e, s, true⟩
    | .resp p =>
      match p.errorMessage with
      | some m => ⟨.raised (.exceptionDuringLambdaExecution "FetchArtistsHandler" m), s, true⟩
      | none =>
        match p.payloadError with
        | some m => ⟨.raised (.failedToRetrieveMonitoredArtists m), s, true⟩
        | none =>
          if p.status_code = 204 then
            ⟨.printedNone, ⟨[], true⟩, true⟩
          else
            ⟨.printedList p.current_artists_names, ⟨p.current_artists_with_id, false⟩, true⟩

/-- Valid affirmative answers (line 174). -/
def yes_choices : List String := ["y", "yes", "yeah", "yup", "yep", "yea", "ya", "yah"]

/-- Valid negative answers (line 175). -/
def no_choices : List String := ["n", "no", "nope", "nah", "naw", "na"]

/-- The go-back tokens (line 176). -/
def go_back_choices : List String := ["b", "back"]

/-- Result of `fetch_artist_id`: a confirmed `(id, name)` pair, the `None`
return (abandon), a raised exception, or exhaustion of the scripted
input. -/
inductive FetchOutcome where
  | confirmed (id name : String)
  | abandoned
  | raised (e : SpotErr)
  | inputExhausted
  deriving DecidableEq, Repr

/-- The `for option_index, artist in enumerate(..., start=1)` loop at lines
212-218 of `fetch_artist_id`.  Python evaluates `int(user_choice)` in the
`if` condition before the `elif ... in go_back_choices` test, so a
non-numeric choice raises `ValueError` on the first iteration; falling off
the loop is the function's implicit `return None`. -/
def artist_select_loop (user_choice : String) : Nat → List SearchArtist → FetchOutcome
  | _, [] => .abandoned
  | option_index, artist :: rest =>
    match pyParseInt user_choice with
    | none => .raised .valueError
    | some v =>
      if v = (option_index : Int) then .confirmed artist.id artist.name
      else if user_choice ∈ go_back_choices then .abandoned
      else artist_select_loop user_choice (option_index + 1) rest

/-- `fetch_artist_id` (lines 128-218), with the remote search response and
the user's scripted answers as inputs.  Mirrors the error-field chain, the
top-candidate confirmation prompt, and the numeric/go-back selection
prompt. -/
def fetch_artist_id (inv : Invoke SearchPayload) (inputs : List String) : FetchOutcome :=
  match inv with
  | .fail e => .raised e
  | .resp p =>
    match p.errorMessage with
    | some m => .raised (.exceptionDuringLambdaExecution "GetArtist-IDHandler" m)
    | none =>
      match p.payloadError with
      | some m => .raised (.failedToRetrieveListOfMatchesWithIDs m)
      | none =>
        match p.artistSearchResultsList with
        | [] => .raised .indexError
        | first_artist_guess :: _ =>
          match get_valid_user_input (yes_choices ++ no_choices) inputs with
          | none => .inputExhausted
          | some (answer, rest) =>
            if answer ∈ yes_choices then
              .confirmed first_artist_guess.id first_artist_guess.name
            else if answer ∈ no_choices then
              match get_valid_user_input
                  (((List.range p.artistSearchResultsList.length).map
                      (fun i => toString (i + 1))) ++ go_back_choices) rest with
              | none => .inputExhausted
              | some (user_choice, _) =>
                artist_select_loop user_choice 1 p.artistSearchResultsList
            else .abandoned

/-- The shared shape of the write-call epilogue in `add_artist` (lines
276-280) and `remove_artist` (lines 335-338): an exception from the invoke
is re-raised; a payload with `statusCode != 200` prints "Something went
wrong. Please try again."; a 200 payload is a confirmed success. -/
inductive WriteOutcome where
  | success
  | failureReported
  | raised (e : SpotErr)
  deriving DecidableEq, Repr

/-- Classify the remote write response exactly as both write paths do. -/
def remote_write_status (inv : Invoke WritePayload) : WriteOutcome :=
  match inv with
  | .fail e => .raised e
  | .resp p => if p.statusCode ≠ 200 then .failureReported else .success

/-- Environment of one iteration of the `while True` loop in `add_artist`:
the response for the `list_artists()` call at the top of the iteration, the
typed search query, the search response and confirmation inputs consumed by
`fetch_artist_id`, and the `AddArtistsHandler` response (used only when the
remote add is actually issued). -/
structure AddIterEnv where
  listResp : Invoke ListPayload
  query : String
  searchResp : Invoke SearchPayload
  confirmInputs : List String
  addResp : Invoke WritePayload
  deriving Repr

/-- What one iteration of `add_artist`'s loop did.  `restart` is the
`if result is None: continue` branch; `alreadyMonitoring` prints
"You're already monitoring ..." and — having no `break` — also lets the
loop continue; `added` and `remoteFailed` both `break`; `raised` propagates
an exception out of `add_artist`. -/
inductive AddStepOutcome where
  | restart
  | alreadyMonitoring (name : String)
  | added (a : Artist)
  | remoteFailed
  | raised (e : SpotErr)
  | inputExhausted
  deriving DecidableEq, Repr

/-- Effect of one `add_artist` loop iteration: the outcome, the cache state
afterwards, and how many remote add invocations were issued (0 or 1). -/
structure AddStep where
  outcome : AddStepOutcome
  state : CacheState
  addCalls : Nat
  deriving DecidableEq, Repr

/-- One iteration of the `while True` loop in `add_artist` (lines 230-287):
`list_artists()`, the search via `fetch_artist_id`, the
`if artist in CACHED_ARTIST_LIST` membership test on the whole dict, and —
only for a new artist — the remote add followed by `append` on success. -/
def add_artist_step (s : CacheState) (env : AddIterEnv) : AddStep :=
  let ls := list_artists s env.listResp
  match ls.outcome with
  | .raised e => ⟨.raised e, ls.state, 0⟩
  | _ =>
    match fetch_artist_id env.searchResp env.confirmInputs with
    | .raised e => ⟨.raised e, ls.state, 0⟩
    | .inputExhausted => ⟨.inputExhausted, ls.state, 0⟩
    | .abandoned => ⟨.restart, ls.state, 0⟩
    | .confirmed id name =>
      let artist : Artist := ⟨id, name⟩
      if artist ∈ ls.state.cachedArtistList then
        ⟨.alreadyMonitoring name, ls.state, 0⟩
      else
        match remote_write_status env.addResp with
        | .raised e => ⟨.raised e, ls.state, 1⟩
        | .failureReported => ⟨.remoteFailed, ls.state, 1⟩
        | .success =>
          ⟨.added artist, ⟨ls.state.cachedArtistList ++ [artist], ls.state.isCacheEmpty⟩, 1⟩

/-- Terminal result of a whole `add_artist` call: either the loop hit a
`break`/exception with the given last-step outcome, or the scripted
iteration environments ran out while the loop was still going. -/
inductive AddResult where
  | finished (o : AddStepOutcome)
  | envExhausted
  deriving DecidableEq, Repr

/-- Cumulative effect of a whole `add_artist` call. -/
structure AddRun where
  result : AddResult
  state : CacheState
  addCalls : Nat
  deriving DecidableEq, Repr

/-- The `while True` loop of `add_artist`, driven by one scripted
environment per iteration.  `restart` and `alreadyMonitoring` continue the
loop; everything else leaves it. -/
def add_artist_loop (s : CacheState) : List AddIterEnv → AddRun
  | [] => ⟨.envExhausted, s, 0⟩
  | env :: rest =>
    let r := add_artist_step s env
    match r.outcome with
    | .restart =>
      let k := add_artist_loop r.state rest
      ⟨k.result, k.state, r.addCalls + k.addCalls⟩
    | .alreadyMonitoring _ =>
      let k := add_artist_loop r.state rest
      ⟨k.result, k.state, r.addCalls + k.addCalls⟩
    | o => ⟨.finished o, r.state, r.addCalls⟩

/-- The validated selection loop of `remove_artist` (lines 301-309): read a
line, try `int(...)`; accept when the value lies in
`range(1, len(CACHED_ARTIST_LIST) + 1)`, i.e. `1 ≤ v ≤ n`; on a parse
failure or an out-of-range value print the re-prompt message and loop.
Returns the accepted choice with the unconsumed inputs, or `none` when the
finite script is exhausted without any input being accepted. -/
def remove_selection_loop (n : Nat) : List String → Option (Int × List String)
  | [] => none
  | inp :: rest =>
    match pyParseInt inp with
    | none => remove_selection_loop n rest
    | some v =>
      if 1 ≤ v ∧ v ≤ (n : Int) then some (v, rest)
      else remove_selection_loop n rest

/-- Environment of one `remove_artist` call. -/
structure RemoveEnv where
  listResp : Invoke ListPayload
  selectionInputs : List String
  removeResp : Invoke WritePayload
  deriving Repr

/-- What a `remove_artist` call did. -/
inductive RemoveOutcome where
  | removed (a : Artist)
  | remoteFailed
  | raised (e : SpotErr)
  | inputExhausted
  deriving DecidableEq, Repr

/-- Effect of one `remove_artist` call: outcome, resulting cache state, and
how many remote remove invocations were issued (0 or 1). -/
structure RemoveRun where
  outcome : RemoveOutcome
  state : CacheState
  removeCalls : Nat
  deriving DecidableEq, Repr

/-- `remove_artist` (lines 292-345): `list_artists()`, the validated
index-selection loop, then the `RemoveArtistsHandler` invocation; only a
`statusCode == 200` response leads to `CACHED_ARTIST_LIST.pop(choice - 1)`. -/
def remove_artist (s : CacheState) (env : RemoveEnv) : RemoveRun :=
  let ls := list_artists s env.listResp
  match ls.outcome with
  | .raised e => ⟨.raised e, ls.state, 0⟩
  | _ =>
    match remove_selection_loop ls.state.cachedArtistList.length env.selectionInputs with
    | none => ⟨.inputExhausted, ls.state, 0⟩
    | some (choice, _) =>
      match remote_write_status env.removeResp with
      | .raised e => ⟨.raised e, ls.state, 1⟩
      | .failureReported => ⟨.remoteFailed, ls.state, 1⟩
      | .success =>
        ⟨.removed (ls.state.cachedArtistList.getD ((choice - 1).toNat) ⟨"", ""⟩),
         ⟨ls.state.cachedArtistList.eraseIdx ((choice - 1).toNat), ls.state.isCacheEmpty⟩, 1⟩

/-- `request_token` (lines 17-46): re-raise invoke failures; raise
`FailedToRetrieveToken` when `returned_json.get('access_token') is None`;
otherwise return the token value — whatever string it is. -/
def request_token (inv : Invoke TokenPayload) : Except SpotErr String :=
  match inv with
  | .fail e => .error e
  | .resp p =>
    match p.access_token with
    | none => .error .failedToRetrieveToken
    | some t => .ok t

/-- What one iteration of the `while True` loop in `main`
(`src/spotificity.py` lines 79-100) did: the dispatched operation returned
normally, the user picked the quit menu entry (`sys.exit` via `quit()`), a
`KeyboardInterrupt` arrived, or the operation raised some other
exception. -/
inductive IterEvent where
  | normal
  | quitSelected
  | keyboardInterrupt
  | raisedErr (e : SpotErr)
  deriving DecidableEq, Repr

/-- How the process ends.  `crashed` is an exception escaping `main` (the
interpreter prints a traceback and terminates abnormally); `stillRunning`
means the finite event script ended with the loop still alive. -/
inductive MainExit where
  | gracefulQuit
  | crashed (e : SpotErr)
  | stillRunning
  deriving DecidableEq, Repr

/-- The `while True: try ... except KeyboardInterrupt: quit()` loop of
`main`.  Only `KeyboardInterrupt` is caught (and routed to `quit()`); the
quit menu entry raises `SystemExit`, which ends the process gracefully; any
other exception propagates out of `main` and terminates the process. -/
def main_loop : List IterEvent → MainExit
  | [] => .stillRunning
  | .normal :: rest => main_loop rest
  | .quitSelected :: _ => .gracefulQuit
  | .keyboardInterrupt :: _ => .gracefulQuit
  | .raisedErr e :: _ => .crashed e

/-! ## Helper lemmas -/

/-- When the cache is non-empty, `list_artists` prints from the cache and
issues no remote call. -/
theorem list_artists_pos (s : CacheState) (inv : Invoke ListPayload)
    (h : 0 < s.cachedArtistList.length) :
    list_artists s inv = ⟨.printedList (s.cachedArtistList.map Artist.artist_name), s, false⟩ := by
  have hb : servesFromCache s = true := by
    unfold servesFromCache
    rw [decide_eq_true h]
    simp
  simp [list_artists, hb, h]

/-- When the cache is empty but the `IS_CACHE_EMPTY` flag is set,
`list_artists` prints the "none monitored" message from the cache and
issues no remote call. -/
theorem list_artists_emptyFlag (s : CacheState) (inv : Invoke ListPayload)
    (h1 : s.cachedArtistList = []) (h2 : s.isCacheEmpty = true) :
    list_artists s inv = ⟨.printedNone, s, false⟩ := by
  have hb : servesFromCache s = true := by
    unfold servesFromCache
    rw [h2]
    simp
  simp [list_artists, hb, h1]

/-- A cache state that serves from the cache yields a `list_artists` step
with unchanged state, no remote call, and one of the two print outcomes. -/
theorem list_artists_serves (s : CacheState) (inv : Invoke ListPayload)
    (hs : servesFromCache s = true) :
    list_artists s inv =
      ⟨if 0 < s.cachedArtistList.length then
          .printedList (s.cachedArtistList.map Artist.artist_name)
        else .printedNone, s, false⟩ := by
  by_cases h0 : 0 < s.cachedArtistList.length
  · rw [if_pos h0]
    exact list_artists_pos s inv h0
  · rw [if_neg h0]
    have h1 : s.cachedArtistList = [] := by
      cases hl : s.cachedArtistList with
      | nil => rfl
      | cons a t => exact absurd (by simp [hl]) h0
    have h2 : s.isCacheEmpty = true := by
      unfold servesFromCache at hs
      rw [h1] at hs
      simpa using hs
    exact list_artists_emptyFlag s inv h1 h2

/-- Unfolding equation: an unparsable head input is rejected. -/
theorem remove_selection_loop_cons_none (n : Nat) (a : String) (t : List String)
    (hp : pyParseInt a = none) :
    remove_selection_loop n (a :: t) = remove_selection_loop n t := by
  simp [remove_selection_loop, hp]

/-- Unfolding equation: an in-range integer head input is accepted. -/
theorem remove_selection_loop_cons_valid (n : Nat) (a : String) (t : List String)
    (v : Int) (hp : pyParseInt a = some v) (hc : 1 ≤ v ∧ v ≤ (n : Int)) :
    remove_selection_loop n (a :: t) = some (v, t) := by
  simp [remove_selection_loop, hp, hc]

/-- Unfolding equation: an out-of-range integer head input is rejected. -/
theorem remove_selection_loop_cons_invalid (n : Nat) (a : String) (t : List String)
    (v : Int) (hp : pyParseInt a = some v) (hc : ¬(1 ≤ v ∧ v ≤ (n : Int))) :
    remove_selection_loop n (a :: t) = remove_selection_loop n t := by
  simp [remove_selection_loop, hp, hc]

/-- The accepted-selection suffix returned by the validation loop is a
proper suffix of the scripted input. -/
theorem remove_selection_loop_shrinks :
    ∀ (n : Nat) (l : List String) (v : Int) (r : List String),
      remove_selection_loop n l = some (v, r) → r.length < l.length := by
  intro n l
  induction l with
  | nil =>
    intro v r h
    simp [remove_selection_loop] at h
  | cons a t ih =>
    intro v r h
    cases hp : pyParseInt a with
    | none =>
      rw [remove_selection_loop_cons_none n a t hp] at h
      have := ih v r h
      simp only [List.length_cons]
      omega
    | some w =>
      by_cases hc : 1 ≤ w ∧ w ≤ (n : Int)
      · rw [remove_selection_loop_cons_valid n a t w hp hc] at h
        injection h with h1
        have ht : t = r := congrArg Prod.snd h1
        subst ht
        simp
      · rw [remove_selection_loop_cons_invalid n a t w hp hc] at h
        have := ih v r h
        simp only [List.length_cons]
        omega

/-- Characterization of one `add_artist` iteration from a state that
serves `list_artists` from the cache: the leading `list_artists()` call
leaves the state alone, so the iteration is determined by the fetch
result, the membership test and the remote write status. -/
theorem add_artist_step_serves (s : CacheState) (env : AddIterEnv)
    (hs : servesFromCache s = true) :
    add_artist_step s env =
      match fetch_artist_id env.searchResp env.confirmInputs with
      | .raised e => ⟨.raised e, s, 0⟩
      | .inputExhausted => ⟨.inputExhausted, s, 0⟩
      | .abandoned => ⟨.restart, s, 0⟩
      | .confirmed id name =>
        if (⟨id, name⟩ : Artist) ∈ s.cachedArtistList then
          ⟨.alreadyMonitoring name, s, 0⟩
        else
          match remote_write_status env.addResp with
          | .raised e => ⟨.raised e, s, 1⟩
          | .failureReported => ⟨.remoteFailed, s, 1⟩
          | .success =>
            ⟨.added ⟨id, name⟩, ⟨s.cachedArtistList ++ [⟨id, name⟩], s.isCacheEmpty⟩, 1⟩ := by
  have hls := list_artists_serves s env.listResp hs
  by_cases h0 : 0 < s.cachedArtistList.length
  · rw [if_pos h0] at hls
    simp only [add_artist_step, hls]
  · rw [if_neg h0] at hls
    simp only [add_artist_step, hls]

/-- Characterization of `remove_artist` from a state that serves
`list_artists` from the cache. -/
theorem remove_artist_serves (s : CacheState) (env : RemoveEnv)
    (hs : servesFromCache s = true) :
    remove_artist s env =
      match remove_selection_loop s.cachedArtistList.length env.selectionInputs with
      | none => ⟨.inputExhausted, s, 0⟩
      | some (choice, _) =>
        match remote_write_status env.removeResp with
        | .raised e => ⟨.raised e, s, 1⟩
        | .failureReported => ⟨.remoteFailed, s, 1⟩
        | .success =>
          ⟨.removed (s.cachedArtistList.getD ((choice - 1).toNat) ⟨"", ""⟩),
           ⟨s.cachedArtistList.eraseIdx ((choice - 1).toNat), s.isCacheEmpty⟩, 1⟩ := by
  have hls := list_artists_serves s env.listResp hs
  by_cases h0 : 0 < s.cachedArtistList.length
  · rw [if_pos h0] at hls
    simp only [remove_artist, hls]
  · rw [if_neg h0] at hls
    simp only [remove_artist, hls]

/-- Characterization of one `add_artist` iteration for any leading
`list_artists()` result that does not raise: the iteration proceeds over
the post-list cache state. -/
theorem add_artist_step_of_list (s : CacheState) (env : AddIterEnv)
    (o : ListOutcome) (s₁ : CacheState) (b : Bool)
    (hls : list_artists s env.listResp = ⟨o, s₁, b⟩)
    (ho : ∀ e, o ≠ .raised e) :
    add_artist_step s env =
      match fetch_artist_id env.searchResp env.confirmInputs with
      | .raised e => ⟨.raised e, s₁, 0⟩
      | .inputExhausted => ⟨.inputExhausted, s₁, 0⟩
      | .abandoned => ⟨.restart, s₁, 0⟩
      | .confirmed id name =>
        if (⟨id, name⟩ : Artist) ∈ s₁.cachedArtistList then
          ⟨.alreadyMonitoring name, s₁, 0⟩
        else
          match remote_write_status env.addResp with
          | .raised e => ⟨.raised e, s₁, 1⟩
          | .failureReported => ⟨.remoteFailed, s₁, 1⟩
          | .success =>
            ⟨.added ⟨id, name⟩, ⟨s₁.cachedArtistList ++ [⟨id, name⟩], s₁.isCacheEmpty⟩, 1⟩ := by
  cases o with
  | raised e => exact absurd rfl (ho e)
  | printedList names => simp only [add_artist_step, hls]
  | printedNone => simp only [add_artist_step, hls]

/-- Characterization of `remove_artist` for any leading `list_artists()`
result that does not raise. -/
theorem remove_artist_of_list (s : CacheState) (env : RemoveEnv)
    (o : ListOutcome) (s₁ : CacheState) (b : Bool)
    (hls : list_artists s env.listResp = ⟨o, s₁, b⟩)
    (ho : ∀ e, o ≠ .raised e) :
    remove_artist s env =
      match remove_selection_loop s₁.cachedArtistList.length env.selectionInputs with
      | none => ⟨.inputExhausted, s₁, 0⟩
      | some (choice, _) =>
        match remote_write_status env.removeResp with
        | .raised e => ⟨.raised e, s₁, 1⟩
        | .failureReported => ⟨.remoteFailed, s₁, 1⟩
        | .success =>
          ⟨.removed (s₁.cachedArtistList.getD ((choice - 1).toNat) ⟨"", ""⟩),
           ⟨s₁.cachedArtistList.eraseIdx ((choice - 1).toNat), s₁.isCacheEmpty⟩, 1⟩ := by
  cases o with
  | raised e => exact absurd rfl (ho e)
  | printedList names => simp only [remove_artist, hls]
  | printedNone => simp only [remove_artist, hls]

/-- The state after one cons step of `add_artist`'s loop is either the
state of the recursive run from the step state, or — on a terminating
step — the step state itself. -/
theorem add_loop_state (s : CacheState) (env : AddIterEnv) (rest : List AddIterEnv) :
    (add_artist_loop s (env :: rest)).state =
        (add_artist_loop (add_artist_step s env).state rest).state ∨
      (add_artist_loop s (env :: rest)).state = (add_artist_step s env).state := by
  simp only [add_artist_loop]
  cases (add_artist_step s env).outcome <;> simp

/-- Running any scripted `add_artist` loop from a cache-serving state with
no duplicate entries keeps both properties: the state still serves from the
cache and its entry list still has no duplicates. -/
theorem add_loop_invariant :
    ∀ (envs : List AddIterEnv) (s : CacheState),
      servesFromCache s = true → s.cachedArtistList.Nodup →
      servesFromCache (add_artist_loop s envs).state = true ∧
        (add_artist_loop s envs).state.cachedArtistList.Nodup := by
  intro envs
  induction envs with
  | nil =>
    intro s h1 h2
    exact ⟨h1, h2⟩
  | cons env rest ih =>
    intro s h1 h2
    have hinv : servesFromCache (add_artist_step s env).state = true ∧
        (add_artist_step s env).state.cachedArtistList.Nodup := by
      cases hf : fetch_artist_id env.searchResp env.confirmInputs with
      | raised e =>
        have hsv : add_artist_step s env = ⟨.raised e, s, 0⟩ := by
          rw [add_artist_step_serves s env h1]
          simp [hf]
        rw [hsv]
        exact ⟨h1, h2⟩
      | inputExhausted =>
        have hsv : add_artist_step s env = ⟨.inputExhausted, s, 0⟩ := by
          rw [add_artist_step_serves s env h1]
          simp [hf]
        rw [hsv]
        exact ⟨h1, h2⟩
      | abandoned =>
        have hsv : add_artist_step s env = ⟨.restart, s, 0⟩ := by
          rw [add_artist_step_serves s env h1]
          simp [hf]
        rw [hsv]
        exact ⟨h1, h2⟩
      | confirmed id name =>
        by_cases hmem : (⟨id, name⟩ : Artist) ∈ s.cachedArtistList
        · have hsv : add_artist_step s env = ⟨.alreadyMonitoring name, s, 0⟩ := by
            rw [add_artist_step_serves s env h1]
            simp [hf, hmem]
          rw [hsv]
          exact ⟨h1, h2⟩
        · cases hw : remote_write_status env.addResp with
          | raised e =>
            have hsv : add_artist_step s env = ⟨.raised e, s, 1⟩ := by
              rw [add_artist_step_serves s env h1]
              simp [hf, hmem, hw]
            rw [hsv]
            exact ⟨h1, h2⟩
          | failureReported =>
            have hsv : add_artist_step s env = ⟨.remoteFailed, s, 1⟩ := by
              rw [add_artist_step_serves s env h1]
              simp [hf, hmem, hw]
            rw [hsv]
            exact ⟨h1, h2⟩
          | success =>
            have hsv : add_artist_step s env =
                ⟨.added ⟨id, name⟩,
                 ⟨s.cachedArtistList ++ [⟨id, name⟩], s.isCacheEmpty⟩, 1⟩ := by
              rw [add_artist_step_serves s env h1]
              simp [hf, hmem, hw]
            rw [hsv]
            constructor
            · simp [servesFromCache]
            · simp [List.nodup_append, h2, hmem]
    rcases add_loop_state s env rest with h | h
    · rw [h]
      exact ih _ hinv.1 hinv.2
    · rw [h]
      exact hinv

/-! ## Claim theorems -/

/-- C1 counterexample: the duplicate check of `add_artist` compares whole
`(artist_id, artist_name)` records, not ids.  Starting from a cache holding
`{id 1, name A}`, a confirmed search result `{id 1, name B}` passes the
`artist in CACHED_ARTIST_LIST` test, the remote add is issued and the cache
ends with two entries sharing id `1`. -/
theorem spec_C1_counterexample :
    (add_artist_loop ⟨[⟨"1", "A"⟩], false⟩
        [⟨.resp ⟨none, none, 200, [], []⟩, "q",
          .resp ⟨none, none, [⟨"1", "B", []⟩]⟩, ["y"], .resp ⟨200⟩⟩]).state.cachedArtistList =
      [⟨"1", "A"⟩, ⟨"1", "B"⟩] ∧
    ¬ ((add_artist_loop ⟨[⟨"1", "A"⟩], false⟩
        [⟨.resp ⟨none, none, 200, [], []⟩, "q",
          .resp ⟨none, none, [⟨"1", "B", []⟩]⟩, ["y"], .resp ⟨200⟩⟩]).state.cachedArtistList.map
            Artist.artist_id).Nodup := by
  constructor <;> decide

/-- C1 (amended): for every sequence of completed add and remove operations
run from a loaded cache with no duplicate entries, the cache never contains
two identical `(id, name)` entries: `add_artist` appends only an artist
whose whole `(id, name)` record is absent, and `remove_artist` only
deletes an existing position.  The membership check is by the whole record
rather than by id alone, so the claimed id-uniqueness does not hold (see
the counterexample): an already-cached id can be re-added under a
different name. -/
theorem spec_C1 :
    (∀ (s : CacheState) (envs : List AddIterEnv),
        servesFromCache s = true → s.cachedArtistList.Nodup →
        (add_artist_loop s envs).state.cachedArtistList.Nodup) ∧
    (∀ (s : CacheState) (env : RemoveEnv),
        servesFromCache s = true → s.cachedArtistList.Nodup →
        (remove_artist s env).state.cachedArtistList.Nodup) := by
  constructor
  · intro s envs h1 h2
    exact (add_loop_invariant envs s h1 h2).2
  · intro s env h1 h2
    cases hr : remove_selection_loop s.cachedArtistList.length env.selectionInputs with
    | none =>
      have hrv : remove_artist s env = ⟨.inputExhausted, s, 0⟩ := by
        rw [remove_artist_serves s env h1]
        simp [hr]
      rw [hrv]
      exact h2
    | some cr =>
      obtain ⟨choice, rest⟩ := cr
      cases hw : remote_write_status env.removeResp with
      | raised e =>
        have hrv : remove_artist s env = ⟨.raised e, s, 1⟩ := by
          rw [remove_artist_serves s env h1]
          simp [hr, hw]
        rw [hrv]
        exact h2
      | failureReported =>
        have hrv : remove_artist s env = ⟨.remoteFailed, s, 1⟩ := by
          rw [remove_artist_serves s env h1]
          simp [hr, hw]
        rw [hrv]
        exact h2
      | success =>
        have hrv : remove_artist s env =
            ⟨.removed (s.cachedArtistList.getD ((choice - 1).toNat) ⟨"", ""⟩),
             ⟨s.cachedArtistList.eraseIdx ((choice - 1).toNat), s.isCacheEmpty⟩, 1⟩ := by
          rw [remove_artist_serves s env h1]
          simp [hr, hw]
        rw [hrv]
        exact (List.eraseIdx_sublist s.cachedArtistList ((choice - 1).toNat)).nodup h2

/-- Witness for C1 at concrete inputs. -/
theorem spec_C1_witness :
    (add_artist_loop ⟨[⟨"1", "A"⟩], false⟩ []).state.cachedArtistList.Nodup ∧
    (remove_artist ⟨[⟨"1", "A"⟩], false⟩
        ⟨.resp ⟨none, none, 200, [], []⟩, ["1"], .resp ⟨200⟩⟩).state.cachedArtistList.Nodup :=
  ⟨spec_C1.1 ⟨[⟨"1", "A"⟩], false⟩ [] (by decide) (by decide),
   spec_C1.2 ⟨[⟨"1", "A"⟩], false⟩
     ⟨.resp ⟨none, none, 200, [], []⟩, ["1"], .resp ⟨200⟩⟩ (by decide) (by decide)⟩

/-- C2 counterexample: after the first iteration reports "already
monitoring" (cache unchanged, no remote call), the `while True` loop of
`add_artist` has no `break` on that branch, so the operation does not stop:
a second scripted iteration runs, performs a new search and adds artist B —
refuting "the operation stops (does not loop back to prompt for another
search)". -/
theorem spec_C2_counterexample :
    add_artist_loop ⟨[⟨"1", "A"⟩], false⟩
        [⟨.resp ⟨none, none, 200, [], []⟩, "q",
          .resp ⟨none, none, [⟨"1", "A", []⟩]⟩, ["yes"], .resp ⟨200⟩⟩,
         ⟨.resp ⟨none, none, 200, [], []⟩, "q",
          .resp ⟨none, none, [⟨"2", "B", []⟩]⟩, ["y"], .resp ⟨200⟩⟩] =
      ⟨.finished (.added ⟨"2", "B"⟩), ⟨[⟨"1", "A"⟩, ⟨"2", "B"⟩], false⟩, 1⟩ := by
  decide

/-- C2 (amended): when `add_artist` obtains a confirmed artist whose
`(id, name)` record is already cached, it reports "already monitoring",
issues no remote add call and leaves the cache unchanged — but the
operation then loops back to prompt for another search (the branch has no
`break`), rather than stopping. -/
theorem spec_C2 :
    ∀ (s : CacheState) (env : AddIterEnv) (rest : List AddIterEnv) (id name : String),
      servesFromCache s = true →
      fetch_artist_id env.searchResp env.confirmInputs = .confirmed id name →
      (⟨id, name⟩ : Artist) ∈ s.cachedArtistList →
      add_artist_step s env = ⟨.alreadyMonitoring name, s, 0⟩ ∧
        add_artist_loop s (env :: rest) = add_artist_loop s rest := by
  intro s env rest id name hs hf hmem
  have hstep : add_artist_step s env = ⟨.alreadyMonitoring name, s, 0⟩ := by
    rw [add_artist_step_serves s env hs]
    simp [hf, hmem]
  refine ⟨hstep, ?_⟩
  simp only [add_artist_loop, hstep]
  simp

/-- Witness for C2 at concrete inputs. -/
theorem spec_C2_witness :
    add_artist_step ⟨[⟨"1", "A"⟩], false⟩
        ⟨.resp ⟨none, none, 200, [], []⟩, "q",
         .resp ⟨none, none, [⟨"1", "A", []⟩]⟩, ["yes"], .resp ⟨200⟩⟩ =
      ⟨.alreadyMonitoring "A", ⟨[⟨"1", "A"⟩], false⟩, 0⟩ ∧
    add_artist_loop ⟨[⟨"1", "A"⟩], false⟩
        [⟨.resp ⟨none, none, 200, [], []⟩, "q",
          .resp ⟨none, none, [⟨"1", "A", []⟩]⟩, ["yes"], .resp ⟨200⟩⟩] =
      add_artist_loop ⟨[⟨"1", "A"⟩], false⟩ [] :=
  spec_C2 ⟨[⟨"1", "A"⟩], false⟩
    ⟨.resp ⟨none, none, 200, [], []⟩, "q",
     .resp ⟨none, none, [⟨"1", "A", []⟩]⟩, ["yes"], .resp ⟨200⟩⟩ [] "1" "A"
    (by decide) (by decide) (by decide)

/-- C3: a remote add or remove call answered with a non-200 `statusCode`
makes the operation report the failure ("Something went wrong. Please try
again.", the `remoteFailed` outcome) and leaves the cached artist list
exactly as it was before the call; the cache is appended to or popped only
after a confirmed 200 response. -/
theorem spec_C3 :
    (∀ (s : CacheState) (env : AddIterEnv) (id name : String) (p : WritePayload),
        (∀ e, (list_artists s env.listResp).outcome ≠ .raised e) →
        fetch_artist_id env.searchResp env.confirmInputs = .confirmed id name →
        (⟨id, name⟩ : Artist) ∉ (list_artists s env.listResp).state.cachedArtistList →
        env.addResp = .resp p → p.statusCode ≠ 200 →
        add_artist_step s env = ⟨.remoteFailed, (list_artists s env.listResp).state, 1⟩) ∧
    (∀ (s : CacheState) (env : RemoveEnv) (choice : Int) (rest : List String) (p : WritePayload),
        (∀ e, (list_artists s env.listResp).outcome ≠ .raised e) →
        remove_selection_loop (list_artists s env.listResp).state.cachedArtistList.length
          env.selectionInputs = some (choice, rest) →
        env.removeResp = .resp p → p.statusCode ≠ 200 →
        remove_artist s env = ⟨.remoteFailed, (list_artists s env.listResp).state, 1⟩) := by
  constructor
  · intro s env id name p hnr hf hmem hresp hsc
    have hw : remote_write_status env.addResp = .failureReported := by
      rw [hresp]
      simp [remote_write_status, hsc]
    rw [add_artist_step_of_list s env (list_artists s env.listResp).outcome
      (list_artists s env.listResp).state (list_artists s env.listResp).remoteCalled rfl hnr]
    simp [hf, hmem, hw]
  · intro s env choice rest p hnr hsel hresp hsc
    have hw : remote_write_status env.removeResp = .failureReported := by
      rw [hresp]
      simp [remote_write_status, hsc]
    rw [remove_artist_of_list s env (list_artists s env.listResp).outcome
      (list_artists s env.listResp).state (list_artists s env.listResp).remoteCalled rfl hnr]
    simp [hsel, hw]

/-- Witness for C3 at concrete inputs. -/
theorem spec_C3_witness :
    add_artist_step ⟨[⟨"1", "A"⟩], false⟩
        ⟨.resp ⟨none, none, 200, [], []⟩, "q",
         .resp ⟨none, none, [⟨"2", "B", []⟩]⟩, ["y"], .resp ⟨500⟩⟩ =
      ⟨.remoteFailed, ⟨[⟨"1", "A"⟩], false⟩, 1⟩ ∧
    remove_artist ⟨[⟨"1", "A"⟩], false⟩
        ⟨.resp ⟨none, none, 200, [], []⟩, ["1"], .resp ⟨500⟩⟩ =
      ⟨.remoteFailed, ⟨[⟨"1", "A"⟩], false⟩, 1⟩ :=
  ⟨spec_C3.1 ⟨[⟨"1", "A"⟩], false⟩
      ⟨.resp ⟨none, none, 200, [], []⟩, "q",
       .resp ⟨none, none, [⟨"2", "B", []⟩]⟩, ["y"], .resp ⟨500⟩⟩ "2" "B" ⟨500⟩
      (fun e h => nomatch h) (by decide) (by decide) rfl (by decide),
   spec_C3.2 ⟨[⟨"1", "A"⟩], false⟩
      ⟨.resp ⟨none, none, 200, [], []⟩, ["1"], .resp ⟨500⟩⟩ 1 [] ⟨500⟩
      (fun e h => nomatch h) (by decide) rfl (by decide)⟩

/-- C6: any input line to `remove_artist`'s selection prompt that does not
parse as an integer in `[1, cache length]` only triggers the re-prompt —
the whole operation behaves as if that line were never typed (so the cache
is untouched and no remote call is issued by the rejection) — and an input
line is accepted exactly when it parses as an integer in
`[1, cache length]`. -/
theorem spec_C6 :
    (∀ (s : CacheState) (lr : Invoke ListPayload) (rr : Invoke WritePayload)
        (inp : String) (rest : List String),
        servesFromCache s = true →
        (∀ v : Int, pyParseInt inp = some v →
          ¬(1 ≤ v ∧ v ≤ (s.cachedArtistList.length : Int))) →
        remove_artist s ⟨lr, inp :: rest, rr⟩ = remove_artist s ⟨lr, rest, rr⟩) ∧
    (∀ (n : Nat) (inp : String) (rest : List String),
        (∃ v, remove_selection_loop n (inp :: rest) = some (v, rest)) ↔
          ∃ v, pyParseInt inp = some v ∧ 1 ≤ v ∧ v ≤ (n : Int)) := by
  constructor
  · intro s lr rr inp rest hs hrej
    have hsel : remove_selection_loop s.cachedArtistList.length (inp :: rest) =
        remove_selection_loop s.cachedArtistList.length rest := by
      cases hp : pyParseInt inp with
      | none => exact remove_selection_loop_cons_none _ _ _ hp
      | some v => exact remove_selection_loop_cons_invalid _ _ _ v hp (hrej v hp)
    rw [remove_artist_serves s ⟨lr, inp :: rest, rr⟩ hs,
        remove_artist_serves s ⟨lr, rest, rr⟩ hs]
    simp only [hsel]
  · intro n inp rest
    constructor
    · rintro ⟨v, hv⟩
      cases hp : pyParseInt inp with
      | none =>
        rw [remove_selection_loop_cons_none n inp rest hp] at hv
        exact absurd (remove_selection_loop_shrinks n rest v rest hv) (lt_irrefl _)
      | some w =>
        by_cases hc : 1 ≤ w ∧ w ≤ (n : Int)
        · exact ⟨w, rfl, hc⟩
        · rw [remove_selection_loop_cons_invalid n inp rest w hp hc] at hv
          exact absurd (remove_selection_loop_shrinks n rest v rest hv) (lt_irrefl _)
    · rintro ⟨v, hp, hc⟩
      exact ⟨v, remove_selection_loop_cons_valid n inp rest v hp hc⟩

/-- Witness for C6 at concrete inputs: on a cache of length 2 the input
"3" is rejected and the whole operation equals the run without it, and
"2" is accepted. -/
theorem spec_C6_witness :
    remove_artist ⟨[⟨"1", "A"⟩, ⟨"2", "B"⟩], false⟩
        ⟨.resp ⟨none, none, 200, [], []⟩, "3" :: ["2"], .resp ⟨200⟩⟩ =
      remove_artist ⟨[⟨"1", "A"⟩, ⟨"2", "B"⟩], false⟩
        ⟨.resp ⟨none, none, 200, [], []⟩, ["2"], .resp ⟨200⟩⟩ ∧
    ((∃ v, remove_selection_loop 2 ("2" :: []) = some (v, [])) ↔
      ∃ v, pyParseInt "2" = some v ∧ 1 ≤ v ∧ v ≤ (2 : Int)) :=
  ⟨spec_C6.1 ⟨[⟨"1", "A"⟩, ⟨"2", "B"⟩], false⟩
      (.resp ⟨none, none, 200, [], []⟩) (.resp ⟨200⟩) "3" ["2"] (by decide)
      (fun v hv => by
        have h3 : pyParseInt "3" = some 3 := by decide
        rw [h3] at hv
        injection hv with h
        subst h
        decide),
   spec_C6.2 2 "2" []⟩

/-- C4 (code bug): at the numeric-selection prompt, entering the go-back
token does not return the abandon signal.  Python evaluates
`int(user_choice)` in the `if` on line 213 before the
`elif user_choice in go_back_choices` on line 217, so `int('b')` raises an
uncaught `ValueError`; the inline comment on line 216 ("send user back to
search menu if they enter `b` or `back`") documents the contrary intent. -/
theorem spec_C4_bug :
    fetch_artist_id (.resp ⟨none, none, [⟨"1", "A", []⟩, ⟨"2", "B", []⟩]⟩) ["no", "b"] =
        .raised .valueError ∧
      fetch_artist_id (.resp ⟨none, none, [⟨"1", "A", []⟩, ⟨"2", "B", []⟩]⟩) ["no", "back"] =
        .raised .valueError := by
  constructor <;> decide

/-- C5 counterexample: on a successful search response whose candidate list
is empty, `fetch_artist_id` does not report "no matches" and terminate with
no result — building `first_artist_guess` from element `[0]` of the empty
`artistSearchResultsList` raises an `IndexError`. -/
theorem spec_C5_counterexample :
    fetch_artist_id (.resp ⟨none, none, []⟩) ["y"] = .raised .indexError := by
  decide

/-- C5 (amended): a successful search response with an empty candidate list
(and no error field) makes `fetch_artist_id` raise an `IndexError` at the
`[0]` access; an empty result accompanied by an `error` field raises
`FailedToRetrieveListOfMatchesWithIDs`.  No "no matches" report exists. -/
theorem spec_C5 :
    (∀ inputs : List String,
        fetch_artist_id (.resp ⟨none, none, []⟩) inputs = .raised .indexError) ∧
    (∀ (msg : String) (results : List SearchArtist) (inputs : List String),
        fetch_artist_id (.resp ⟨none, some msg, results⟩) inputs =
          .raised (.failedToRetrieveListOfMatchesWithIDs msg)) :=
  ⟨fun _ => rfl, fun _ _ _ => rfl⟩

/-- C7: with the cache UNLOADED (empty list, flag clear) and the backend
answering `status_code = 204`, `list_artists` prints the "no artists
currently being monitored" message (`printedNone`) and moves the cache to
LOADED_EMPTY (`⟨[], true⟩`); from that state every later `list_artists`
call answers from the cache — same message, unchanged state, no remote
call. -/
theorem spec_C7 :
    (∀ (names : List String) (artists : List Artist),
        list_artists ⟨[], false⟩ (.resp ⟨none, none, 204, names, artists⟩) =
          ⟨.printedNone, ⟨[], true⟩, true⟩) ∧
    (∀ inv : Invoke ListPayload,
        list_artists ⟨[], true⟩ inv = ⟨.printedNone, ⟨[], true⟩, false⟩) :=
  ⟨fun _ _ => rfl, fun _ => rfl⟩

/-- C8 counterexample: a response whose `access_token` field is present but
empty is returned as a successful (empty) token, not reported as an error —
`request_token` only checks the field for `None`. -/
theorem spec_C8_counterexample :
    request_token (.resp ⟨some ""⟩) = .ok "" := rfl

/-- C8 (amended): `request_token` returns the `access_token` string of the
response payload whenever the field is present — including the empty
string — and fails with `FailedToRetrieveToken` only when the field is
absent; invoke failures are re-raised. -/
theorem spec_C8 :
    (∀ t : String, request_token (.resp ⟨some t⟩) = .ok t) ∧
    request_token (.resp ⟨none⟩) = .error .failedToRetrieveToken ∧
    (∀ e : SpotErr, request_token (.fail e) = .error e) :=
  ⟨fun _ => rfl, rfl, fun _ => rfl⟩

/-- C9 counterexample: a transport error during `list_artists` (here a
`ClientError` from the invoke) is re-raised after being printed, and the
main loop — which catches only `KeyboardInterrupt` — lets it escape, so
the process terminates instead of returning to the menu. -/
theorem spec_C9_counterexample :
    (list_artists ⟨[], false⟩ (.fail (.clientError "AccessDeniedException" "denied"))).outcome =
        .raised (.clientError "AccessDeniedException" "denied") ∧
      main_loop [.raisedErr (.clientError "AccessDeniedException" "denied")] =
        .crashed (.clientError "AccessDeniedException" "denied") :=
  ⟨rfl, rfl⟩

/-- C9 (amended): the main loop catches only `KeyboardInterrupt` (routed to
the graceful quit path, like the quit menu entry); any other exception
raised by a dispatched operation terminates the process; iterations that
return normally loop back to the menu. -/
theorem spec_C9 :
    (∀ (e : SpotErr) (rest : List IterEvent),
        main_loop (.raisedErr e :: rest) = .crashed e) ∧
    (∀ rest : List IterEvent, main_loop (.keyboardInterrupt :: rest) = .gracefulQuit) ∧
    (∀ rest : List IterEvent, main_loop (.quitSelected :: rest) = .gracefulQuit) ∧
    (∀ rest : List IterEvent, main_loop (.normal :: rest) = main_loop rest) :=
  ⟨fun _ _ => rfl, fun _ => rfl, fun _ => rfl, fun _ => rfl⟩

/-- C10: with an empty cached list the valid range `[1, 0]` is empty, so
the `remove_artist` selection loop accepts no input whatsoever: every
scripted input line is rejected with a re-prompt, and a `remove_artist`
call on the LOADED_EMPTY state consumes its whole script, mutates nothing
and issues no remote call. -/
theorem spec_C10 :
    (∀ inputs : List String, remove_selection_loop 0 inputs = none) ∧
    (∀ env : RemoveEnv,
        remove_artist ⟨[], true⟩ env = ⟨.inputExhausted, ⟨[], true⟩, 0⟩) := by
  have hloop : ∀ inputs : List String, remove_selection_loop 0 inputs = none := by
    intro inputs
    induction inputs with
    | nil => rfl
    | cons a t ih =>
      cases hp : pyParseInt a with
      | none =>
        rw [remove_selection_loop_cons_none 0 a t hp]
        exact ih
      | some v =>
        rw [remove_selection_loop_cons_invalid 0 a t v hp (by omega)]
        exact ih
  refine ⟨hloop, fun env => ?_⟩
  have h := list_artists_emptyFlag ⟨[], true⟩ env.listResp rfl rfl
  simp [remove_artist, h, hloop]

end Spotificity
